import Mathlib

/-!
Shallow embedding of the service-resolution and request-dispatch layer of the
python-onvif client (src/onvif/client.py and src/onvif/definition.py).

Machine integers of the source are Python arbitrary-precision ints, embedded as
Int.  Time values (datetime / timedelta) are embedded as abstract Int instants
and Int differences.  Fallible Python code is embedded as Except over an error
type mirroring the exception classes that the source raises or catches.
-/

namespace Onvif

/-- Association-list read, mirroring Python dict membership or dict.get:
first binding of the key wins (Python dicts hold one binding per key). -/
def alookup {α : Type} : List (String × α) → String → Option α
  | [], _ => none
  | (k, v) :: rest, key => if k = key then some v else alookup rest key

/-- Association-list write, mirroring Python dict item assignment: replaces the
existing binding in place, or appends a new one (insertion order preserved). -/
def setAssoc {α : Type} : List (String × α) → String → α → List (String × α)
  | [], key, v => [(key, v)]
  | (k, w) :: rest, key, v =>
    if k = key then (key, v) :: rest else (k, w) :: setAssoc rest key v

/-- Python str.lower() on the ASCII service names used by the source
(structural recursion over the character data, so it evaluates by
kernel reduction). -/
def pyLower (s : String) : String := String.mk (s.data.map Char.toLower)

/-- Python str.startswith, structurally over the character data (so that it
evaluates by kernel reduction). -/
def strStartsWith (s pre : String) : Bool := pre.data.isPrefixOf s.data

/-- Python exceptions relevant to client.py.  The constructor onvifError embeds
the ONVIFError class.  ONVIFError itself lives in onvif/exceptions.py, which is
not under src/; Modelled from the spec: one uniform client-facing error kind
carrying a message and, when it wraps another exception, the original cause.
typeError embeds TypeError (caught in service_wrapper and raised by getattr on
a non-string attribute name); exc embeds any other exception class (transport,
SOAP fault, ...), as a class name plus message. -/
inductive PyErr where
  | onvifError (msg : String) (cause : Option PyErr)
  | typeError (msg : String)
  | exc (clsName msg : String)

/-- Python str(err): the message of the exception. -/
def errStr : PyErr → String
  | .onvifError m _ => m
  | .typeError m => m
  | .exc _ m => m

/-- client.py lines 23-31, safeFunc: run the wrapped computation and turn any
raised exception err into ONVIFError(err). -/
def safeFuncE {α : Type} : Except PyErr α → Except PyErr α
  | .ok a => .ok a
  | .error e => .error (.onvifError (errStr e) (some e))

/-- Python values flowing through service_wrapper: strings, ints, None, lists,
plain dicts, and zeep structured objects (zobj: the schema type name plus the
mapping of its populated fields). -/
inductive PyVal where
  | str (s : String)
  | int (n : Int)
  | pynone
  | list (xs : List PyVal)
  | dict (fields : List (String × PyVal))
  | zobj (typeName : String) (fields : List (String × PyVal))

mutual

/-- client.py lines 124-128, ONVIFService.to_dict, delegating to
zeep.helpers.serialize_object (external collaborator): structured objects and
dicts become plain key-to-value mappings, lists are mapped elementwise, and
atoms pass through.  The None-argument case ({} for None) is handled at the
call site in serviceCall below, matching the source, which only reaches
to_dict with a non-None argument. -/
def to_dict : PyVal → PyVal
  | .str s => .str s
  | .int n => .int n
  | .pynone => .pynone
  | .list xs => .list (to_dictList xs)
  | .dict fs => .dict (to_dictFields fs)
  | .zobj _ fs => .dict (to_dictFields fs)

def to_dictList : List PyVal → List PyVal
  | [] => []
  | x :: xs => to_dict x :: to_dictList xs

def to_dictFields : List (String × PyVal) → List (String × PyVal)
  | [] => []
  | (k, v) :: fs => (k, to_dict v) :: to_dictFields fs

end

/-- Modelled from the spec: client.py line 115 defines create_type as
constructing a zero-valued instance of a named schema type through the zeep
element machinery (external collaborator, spec 4.3 createEmptyParameter); the
zero-valued instance starts with no populated fields and serializes to the
mapping of the fields populated so far. -/
def create_type (typeName : String) : PyVal :=
  .zobj typeName []

/-- Python attribute assignment params.Field = value on a structured record;
on any other value it is out of the scope used by the source. -/
def setField : PyVal → String → PyVal → PyVal
  | .zobj t fs, k, v => .zobj t (setAssoc fs k v)
  | v, _, _ => v

/-- client.py lines 130-147, service_wrapper.wrapped.call: None becomes {},
anything else goes through to_dict; then the operation is invoked with the
mapping spread as keyword arguments (fkw), falling back to a single positional
argument (fpos) when a TypeError is raised.  fkw and fpos are the two calling
conventions of the underlying zeep proxy operation (external collaborator). -/
def dispatchCall (fkw : List (String × PyVal) → Except PyErr PyVal)
    (fpos : PyVal → Except PyErr PyVal) (params : Option PyVal) :
    Except PyErr PyVal :=
  let p : PyVal := match params with
    | none => .dict []
    | some ps => to_dict ps
  let first : Except PyErr PyVal := match p with
    | .dict fs => fkw fs
    | _ => .error (.typeError "argument after ** must be a mapping")
  match first with
  | .error (.typeError _) => fpos p
  | r => r

/-- client.py lines 130-147, service_wrapper.wrapped: the call wrapped by
safeFunc, so every escaping exception is re-raised as ONVIFError(err). -/
def serviceMethod (fkw : List (String × PyVal) → Except PyErr PyVal)
    (fpos : PyVal → Except PyErr PyVal) (params : Option PyVal) :
    Except PyErr PyVal :=
  safeFuncE (dispatchCall fkw fpos params)

/-- client.py lines 34-53, UsernameDigestTokenDtDiff: the state the token
provider keeps between applications.  created is the optional preset creation
instant (zeep UsernameToken initializes it to None when not passed, as in this
repository); dtDiff is the clock-skew difference. -/
structure TokenState where
  username : String
  password : String
  use_digest : Bool
  created : Option Int
  dtDiff : Option Int
  deriving DecidableEq, Repr

/-- client.py lines 41-43, UsernameDigestTokenDtDiff constructor as invoked by
ONVIFService (line 94): created starts as None. -/
def mkToken (user passw : String) (dt_diff : Option Int) (use_digest : Bool) :
    TokenState :=
  { username := user, password := passw, use_digest := use_digest,
    created := none, dtDiff := dt_diff }

/-- client.py lines 45-53, UsernameDigestTokenDtDiff.apply at instant now:
saves oldCreated, fills created with now when it is None, adds dtDiff when
set, delegates to the zeep UsernameToken apply (external collaborator, which
stamps the message with the current created value), then restores created.
Returns the timestamp stamped into the message and the state afterwards. -/
def applyToken (now : Int) (st : TokenState) : Int × TokenState :=
  let oldCreated := st.created
  let created1 : Int := match st.created with
    | none => now
    | some t => t
  let created2 : Int := match st.dtDiff with
    | none => created1
    | some d => created1 + d
  (created2, { st with created := oldCreated })

/-- Repeated applications of the token at the given sequence of instants:
the timestamps produced and the provider state left behind. -/
def applyMany (st : TokenState) (nows : List Int) : List Int × TokenState :=
  match nows with
  | [] => ([], st)
  | n :: rest =>
    let r1 := applyToken n st
    let r2 := applyMany r1.2 rest
    (r1.1 :: r2.1, r2.2)

/-- definition.py line 6: one entry of the static service registry. -/
structure ServiceInfo where
  ns : String
  wsdl : String
  binding : String
  portType : Option String
  deriving DecidableEq, Repr

/-- definition.py line 5. -/
def NS : String := "http://www.onvif.org/"

/-- definition.py lines 8-30: the SERVICES table, in source order. -/
def SERVICES : List (String × ServiceInfo) := [
  ("devicemgmt", ⟨NS ++ "ver10/device/wsdl", "devicemgmt.wsdl", "DeviceBinding", none⟩),
  ("media", ⟨NS ++ "ver10/media/wsdl", "media.wsdl", "MediaBinding", none⟩),
  ("ptz", ⟨NS ++ "ver20/ptz/wsdl", "ptz.wsdl", "PTZBinding", none⟩),
  ("imaging", ⟨NS ++ "ver20/imaging/wsdl", "imaging.wsdl", "ImagingBinding", none⟩),
  ("deviceio", ⟨NS ++ "ver10/deviceIO/wsdl", "deviceio.wsdl", "DeviceIOBinding", none⟩),
  ("events", ⟨NS ++ "ver10/events/wsdl", "events.wsdl", "EventBinding", none⟩),
  ("pullpoint", ⟨NS ++ "ver10/events/wsdl", "events.wsdl",
    "PullPointSubscriptionBinding", some "PullPointSubscription"⟩),
  ("notification", ⟨NS ++ "ver10/events/wsdl", "events.wsdl",
    "NotificationProducerBinding", none⟩),
  ("subscription", ⟨NS ++ "ver10/events/wsdl", "events.wsdl",
    "SubscriptionManagerBinding", none⟩),
  ("analytics", ⟨NS ++ "ver20/analytics/wsdl", "analytics.wsdl",
    "AnalyticsEngineBinding", none⟩),
  ("recording", ⟨NS ++ "ver10/recording/wsdl", "recording.wsdl", "RecordingBinding", none⟩),
  ("search", ⟨NS ++ "ver10/search/wsdl", "search.wsdl", "SearchBinding", none⟩),
  ("replay", ⟨NS ++ "ver10/replay/wsdl", "replay.wsdl", "ReplayBinding", none⟩),
  ("receiver", ⟨NS ++ "ver10/receiver/wsdl", "receiver.wsdl", "ReceiverBinding", none⟩)]

/-- client.py lines 86-115, ONVIFService.__init__: the state the constructed
service client keeps.  The zeep Client and its ws_client proxy are external
collaborators; the fields below are the ones the facade logic reads. -/
structure ONVIFService where
  url : String
  xaddr : String
  user : String
  passwd : String
  encrypt : Bool
  dt_diff : Option Int
  binding_name : String
  deriving DecidableEq, Repr

/-- client.py lines 86-115, ONVIFService.__init__, decorated with safeFunc:
raises ONVIFError when the wsdl file url does not exist (the filesystem is the
predicate fe), otherwise builds the client.  The zeep Client construction and
namespace-prefix computation (lines 96-115) are external collaborators taken
to succeed.  The safeFunc decoration wraps the raised ONVIFError once more. -/
def ONVIFService.construct (fe : String → Bool) (xaddr user passwd url : String)
    (encrypt : Bool) (dt_diff : Option Int) (binding_name : String) :
    Except PyErr ONVIFService :=
  safeFuncE
    (if !(fe url) then .error (.onvifError (url ++ " doesn\x60t exist!") none)
     else .ok { url := url, xaddr := xaddr, user := user, passwd := passwd,
                encrypt := encrypt, dt_diff := dt_diff, binding_name := binding_name })

/-- One entry of a GetCapabilities response: Python None, or a record of
attributes such as XAddr. -/
abbrev CapVal := Option (List (String × String))

/-- client.py line 183: the ONVIFCamera.PullPointSubscription class attribute. -/
def PullPointSubscriptionKey : String :=
  "http://www.onvif.org/ver10/events/wsdl/PullPointSubscription"

/-- client.py lines 185-205 plus later setattr sites: the instance state of
ONVIFCamera.  attrs holds the service attributes set dynamically by
createService (line 317) and update_xaddrs (devicemgmt, event); capabilities
is the attribute set by update_url (line 251), absent until then.  The RLock
(services_lock) has no observable sequential content and is kept implicit. -/
structure Camera where
  host : String
  port : Int
  user : String
  passwd : String
  wsdl_dir : String
  encrypt : Bool
  adjust_time : Bool
  transport : Option String
  dt_diff : Option Int
  xaddrs : List (String × String)
  services : List (String × ONVIFService)
  attrs : List (String × ONVIFService)
  capabilities : Option (List (String × CapVal))
  deriving DecidableEq, Repr

/-- client.py lines 185-205, ONVIFCamera.__init__ (the proxy environment
mutation is process state outside this model). -/
def cameraInit (host : String) (port : Int) (user passwd wsdl_dir : String)
    (encrypt adjust_time : Bool) (transport : Option String) : Camera :=
  { host := host, port := port, user := user, passwd := passwd,
    wsdl_dir := wsdl_dir, encrypt := encrypt, adjust_time := adjust_time,
    transport := transport, dt_diff := none, xaddrs := [], services := [],
    attrs := [], capabilities := none }

/-- A Python attribute value of an ONVIFCamera instance, as seen by getattr. -/
inductive AttrVal where
  | str (s : String)
  | int (n : Int)
  | bool (b : Bool)
  | pynone
  | strMap (m : List (String × String))
  | svcMap (m : List (String × ONVIFService))
  | svc (s : ONVIFService)
  | capsVal (l : List (String × CapVal))
  | obj (tag : String)
  deriving DecidableEq, Repr

/-- Python truthiness of an attribute value (bool(v)): empty strings, zero,
None, empty dicts and the zero timedelta are falsy; other objects truthy. -/
def truthy : AttrVal → Bool
  | .str s => !(s == "")
  | .int n => !(n == 0)
  | .bool b => b
  | .pynone => false
  | .strMap m => !m.isEmpty
  | .svcMap m => !m.isEmpty
  | .svc _ => true
  | .capsVal _ => true
  | .obj _ => true

/-- The methods defined on the ONVIFCamera class (class attributes found by
getattr after the instance dict). -/
def cameraMethods : List String :=
  ["update_xaddrs", "update_url", "get_service", "get_definition", "createService"]

/-- Python getattr(camera, name, None) over the ONVIFCamera instance dict
(fixed fields of __init__, the capabilities attribute once set, the service
attributes set by setattr) and then the class attributes; none encodes a
missing attribute (so the getattr default None). -/
def getattrCam (c : Camera) (name : String) : Option AttrVal :=
  if name = "host" then some (.str c.host)
  else if name = "port" then some (.int c.port)
  else if name = "user" then some (.str c.user)
  else if name = "passwd" then some (.str c.passwd)
  else if name = "wsdl_dir" then some (.str c.wsdl_dir)
  else if name = "encrypt" then some (.bool c.encrypt)
  else if name = "adjust_time" then some (.bool c.adjust_time)
  else if name = "transport" then
    some (match c.transport with | none => .pynone | some t => .obj t)
  else if name = "dt_diff" then
    some (match c.dt_diff with | none => .pynone | some d => .int d)
  else if name = "xaddrs" then some (.strMap c.xaddrs)
  else if name = "services" then some (.svcMap c.services)
  else if name = "services_lock" then some (.obj "RLock")
  else if name = "to_dict" then some (.obj "to_dict")
  else if name = "capabilities" then
    (match c.capabilities with | none => none | some l => some (.capsVal l))
  else match alookup c.attrs name with
    | some s => some (.svc s)
    | none =>
      if name = "PullPointSubscription" then some (.str PullPointSubscriptionKey)
      else if cameraMethods.contains name then some (.obj name)
      else none

/-- client.py lines 264-294, ONVIFCamera.get_definition: returns
(xaddr, wsdlpath, binding_name) or raises.  Unknown names raise ONVIFError
(Unknown service); a missing wsdl file (fe is the filesystem) raises
ONVIFError (No such file); devicemgmt gets the fixed endpoint built from host
and port only; every other service reads xaddrs.get(ns), raising ONVIFError
(Device does not support service) when the entry is absent or empty. -/
def get_definition (fe : String → Bool) (c : Camera) (name : String)
    (portType : Option String) : Except PyErr (String × String × String) :=
  match alookup SERVICES name with
  | none => .error (.onvifError ("Unknown service " ++ name) none)
  | some si =>
    let wsdl_file := si.wsdl
    let binding_name := "\x7b" ++ si.ns ++ "\x7d" ++ si.binding
    let ns := match portType with
      | none => si.ns
      | some pt => if pt = "" then si.ns else si.ns ++ "/" ++ pt
    let wsdlpath := c.wsdl_dir ++ "/" ++ wsdl_file
    if !(fe wsdlpath) then .error (.onvifError ("No such file: " ++ wsdlpath) none)
    else if name = "devicemgmt" then
      let base := if strStartsWith c.host "http://" || strStartsWith c.host "https://"
        then c.host else "http://" ++ c.host
      let xaddr := base ++ ":" ++ toString c.port ++ "/onvif/device_service"
      .ok (xaddr, wsdlpath, binding_name)
    else
      match alookup c.xaddrs ns with
      | none => .error (.onvifError ("Device doesn\x27t support service: " ++ name) none)
      | some xaddr =>
        if xaddr = "" then
          .error (.onvifError ("Device doesn\x27t support service: " ++ name) none)
        else .ok (xaddr, wsdlpath, binding_name)

/-- client.py lines 296-318, ONVIFCamera.createService: lower-cases the name,
resolves the definition, constructs the ONVIFService (passing the facade
credential, encrypt flag and dt_diff), stores it in the services dict and as
an instance attribute of the same name, and returns it.  The transport
pass-through does not affect the modelled state. -/
def createService (fe : String → Bool) (c : Camera) (name : String)
    (portType : Option String) : Except PyErr (Camera × ONVIFService) :=
  let lname := pyLower name
  match get_definition fe c lname portType with
  | .error e => .error e
  | .ok (xaddr, wsdlFile, bindingName) =>
    match ONVIFService.construct fe xaddr c.user c.passwd wsdlFile
        c.encrypt c.dt_diff bindingName with
    | .error e => .error e
    | .ok service =>
      .ok ({ c with services := setAssoc c.services lname service,
                    attrs := setAssoc c.attrs lname service }, service)

/-- client.py lines 258-262, ONVIFCamera.get_service: reads the lower-cased
name as an attribute of the facade itself (default None); when that value is
falsy and create is set, delegates to createService; otherwise returns the
attribute value as it is (None included, without raising). -/
def get_service (fe : String → Bool) (c : Camera) (name : String)
    (create : Bool) : Except PyErr (Camera × Option AttrVal) :=
  let service := getattrCam c (pyLower name)
  let isFalsy := match service with
    | none => true
    | some v => !(truthy v)
  if isFalsy && create then
    match createService fe c (pyLower name) none with
    | .error e => .error e
    | .ok (c2, s) => .ok (c2, some (.svc s))
  else .ok (c, service)

/-- The remote device and its network, as an oracle: the outcomes of the
GetSystemDateAndTime fetch (reduced to the abstract device instant), the two
GetCapabilities calls made by update_xaddrs and update_url, and the
CreatePullPointSubscription call (reduced to the subscription address).
Failures are the raw underlying exceptions before any wrapping. -/
structure Dev where
  sysDateTime : Except PyErr Int
  capabilitiesAll : Except PyErr (List (String × CapVal))
  capabilitiesNoArg : Except PyErr (List (String × CapVal))
  pullpoint : Except PyErr String

/-- client.py lines 220-227: one iteration of the capability loop.  An entry
whose lower-cased name is a known service and whose value is not None records
xaddrs[ns] = capability[XAddr]; a missing XAddr key raises inside the per-entry
try and is logged and skipped; unknown or None entries are skipped by the
condition itself. -/
def capEntryStep (acc : List (String × String)) (name : String)
    (capability : CapVal) : List (String × String) :=
  match alookup SERVICES (pyLower name) with
  | none => acc
  | some si =>
    match capability with
    | none => acc
    | some fields =>
      match alookup fields "XAddr" with
      | none => acc
      | some x => setAssoc acc si.ns x

/-- client.py lines 218-227: the capability map rebuilt from a GetCapabilities
response, starting from the cleared dict. -/
def capLoop (caps : List (String × CapVal)) : List (String × String) :=
  caps.foldl (fun acc kv => capEntryStep acc kv.1 kv.2) []

/-- client.py lines 208-216, the steps of ONVIFCamera.update_xaddrs that come
before the xaddrs dict is cleared on line 218: reset dt_diff, create the
devicemgmt client, and when adjust_time is set fetch the device time (through
the service wrapper) and recreate devicemgmt with the measured skew.  A
propagating exception carries the facade state at the moment it is raised
(Python mutates the instance in place). -/
def bootstrapDeviceMgmt (fe : String → Bool) (dev : Dev) (now : Int)
    (c0 : Camera) : Except (PyErr × Camera) Camera :=
  let c := { c0 with dt_diff := none }
  match createService fe c "devicemgmt" none with
  | .error e => .error (e, c)
  | .ok (c, _) =>
    if c.adjust_time then
      match safeFuncE dev.sysDateTime with
      | .error e => .error (e, c)
      | .ok camDate =>
        let c2 := { c with dt_diff := some (camDate - now) }
        match createService fe c2 "devicemgmt" none with
        | .error e => .error (e, c2)
        | .ok (c3, _) => .ok c3
    else .ok c

/-- client.py lines 207-236, ONVIFCamera.update_xaddrs at local instant now:
runs the devicemgmt and time-adjustment steps (bootstrapDeviceMgmt above),
clears xaddrs, fetches capabilities (category All) and rebuilds xaddrs from
them, then best-effort creates the events client and a pull-point
subscription, swallowing any failure of that last block.  A propagating
exception carries the facade state at the moment it is raised. -/
def update_xaddrs (fe : String → Bool) (dev : Dev) (now : Int) (c0 : Camera) :
    Except (PyErr × Camera) Camera :=
  match bootstrapDeviceMgmt fe dev now c0 with
  | .error ec => .error ec
  | .ok c =>
    let c := { c with xaddrs := [] }
    match safeFuncE dev.capabilitiesAll with
    | .error e => .error (e, c)
    | .ok caps =>
      let c := { c with xaddrs := capLoop caps }
      match createService fe c "events" none with
      | .error _ => .ok c
      | .ok (c2, ev) =>
        let c3 := { c2 with attrs := setAssoc c2.attrs "event" ev }
        match safeFuncE dev.pullpoint with
        | .error _ => .ok c3
        | .ok addr =>
          .ok { c3 with xaddrs := setAssoc c3.xaddrs PullPointSubscriptionKey addr }

/-- Observable network side effects of update_url: the capability fetch, and
the endpoint repointing a cached client would receive. -/
inductive Effect where
  | capFetch
  | setLocation (sname xaddr : String)
  deriving DecidableEq, Repr

/-- client.py lines 253-256: the repointing loop over the cached services.
Its body evaluates getattr(self.capabilities, sname.capitalize): the second
argument is the bound method str.capitalize of sname, not a string, so getattr
raises TypeError on the first iteration; no set_options call is ever reached.
An empty services dict would skip the loop body entirely. -/
def repointLoop (_caps : List (String × CapVal)) :
    List (String × ONVIFService) → Except PyErr (List Effect)
  | [] => .ok []
  | _ :: _ =>
    .error (.typeError "attribute name must be string, not \x27builtin_function_or_method\x27")

/-- client.py lines 238-256, ONVIFCamera.update_url: marks changed when a
truthy host differs from the current one, likewise for port; returns at once
when nothing changed; otherwise recreates devicemgmt, fetches capabilities
once (through the service wrapper), stores them in the capabilities attribute
and runs the repointing loop.  Returns the network effects performed together
with the outcome; a propagating exception carries the facade state at the
moment it is raised. -/
def update_url (fe : String → Bool) (dev : Dev) (c0 : Camera)
    (host : Option String) (port : Option Int) :
    List Effect × Except (PyErr × Camera) Camera :=
  let hres : Camera × Bool := match host with
    | some h => if (h != "") && (c0.host != h) then ({ c0 with host := h }, true)
                else (c0, false)
    | none => (c0, false)
  let pres : Camera × Bool := match port with
    | some p => if (p != 0) && (hres.1.port != p) then ({ hres.1 with port := p }, true)
                else (hres.1, hres.2)
    | none => (hres.1, hres.2)
  let c := pres.1
  if !pres.2 then ([], .ok c)
  else
    match createService fe c "devicemgmt" none with
    | .error e => ([], .error (e, c))
    | .ok (c1, _) =>
      match safeFuncE dev.capabilitiesNoArg with
      | .error e => ([.capFetch], .error (e, c1))
      | .ok caps =>
        let c2 := { c1 with capabilities := some caps }
        match repointLoop caps c2.services with
        | .error e => ([.capFetch], .error (e, c2))
        | .ok effs => (.capFetch :: effs, .ok c2)

/-- The fixed devicemgmt endpoint of client.py lines 281-287, as a function of
host and port alone. -/
def devicemgmtXAddr (host : String) (port : Int) : String :=
  (if strStartsWith host "http://" || strStartsWith host "https://"
   then host else "http://" ++ host)
    ++ ":" ++ toString port ++ "/onvif/device_service"

/-- A filesystem on which every wsdl file exists. -/
def feAll : String → Bool := fun _ => true

/-- A filesystem on which no wsdl file exists. -/
def feNone : String → Bool := fun _ => false

/-- The camera of the class docstring: ONVIFCamera(192.168.0.112, 80, admin,
12345) with a wsdl directory named wsdl. -/
def cam0 : Camera := cameraInit "192.168.0.112" 80 "admin" "12345" "wsdl" true false none

/-- cam0 after a previous successful bootstrap recorded a media endpoint. -/
def staleCam : Camera :=
  { cam0 with xaddrs := [(NS ++ "ver10/media/wsdl", "http://oldhost/onvif/media")] }

/-- A device whose calls all succeed except the optional pull-point step. -/
def dev0 : Dev :=
  { sysDateTime := .ok 0, capabilitiesAll := .ok [], capabilitiesNoArg := .ok [],
    pullpoint := .error (.exc "Fault" "no events") }

/-- A device whose capability-discovery call fails with a transport error. -/
def devCapFail : Dev :=
  { dev0 with capabilitiesAll := .error (.exc "ConnectionError" "boom") }

/-- The devicemgmt client that createService builds on cam0 over feAll. -/
def dmService0 : ONVIFService :=
  { url := "wsdl/devicemgmt.wsdl",
    xaddr := "http://192.168.0.112:80/onvif/device_service",
    user := "admin", passwd := "12345", encrypt := true, dt_diff := none,
    binding_name := "\x7bhttp://www.onvif.org/ver10/device/wsdl\x7dDeviceBinding" }

/-- cam0 right after createService(devicemgmt) stored the client. -/
def cam0dm : Camera :=
  { cam0 with services := [("devicemgmt", dmService0)],
              attrs := [("devicemgmt", dmService0)] }

/-- cam0 with time adjustment requested. -/
def camAdj : Camera := { cam0 with adjust_time := true }

/-- camAdj right after createService(devicemgmt) stored the client. -/
def camAdjDm : Camera :=
  { camAdj with services := [("devicemgmt", dmService0)],
                attrs := [("devicemgmt", dmService0)] }

/-- A device whose GetSystemDateAndTime call fails with a transport error. -/
def devSysFail : Dev := { dev0 with sysDateTime := .error (.exc "OSError" "timeout") }

/-- Helper: the state createService leaves behind on success is the input
state with the new client stored under the lower-cased name in both the
services dict and the instance attributes. -/
theorem createService_ok_state {fe : String → Bool} {c c' : Camera} {name : String}
    {pt : Option String} {s : ONVIFService}
    (h : createService fe c name pt = .ok (c', s)) :
    c' = { c with services := setAssoc c.services (pyLower name) s,
                  attrs := setAssoc c.attrs (pyLower name) s } := by
  unfold createService at h
  dsimp only at h
  split at h
  · exact absurd h (by simp)
  · split at h
    · exact absurd h (by simp)
    · simp only [Except.ok.injEq, Prod.mk.injEq] at h
      obtain ⟨h1, h2⟩ := h
      subst h2
      exact h1.symm

/-- Helper: applying the freshly constructed token stamps now plus the skew
and leaves the constructed state unchanged. -/
theorem applyToken_mkToken (u p : String) (dig : Bool) (d : Option Int) (now : Int) :
    applyToken now (mkToken u p d dig) = (now + d.getD 0, mkToken u p d dig) := by
  cases d <;> simp [applyToken, mkToken]

/-- C7: when the token is applied, the message timestamp is the current time
plus the configured skew (the current time alone when no skew is set,
Option.getD 0), the provider state is restored to its pre-call value, and over
any sequence of applications each timestamp gets the skew exactly once, with
no accumulation across calls. -/
theorem token_skew_applied_once_and_state_restored (u p : String) (dig : Bool)
    (d : Option Int) (now : Int) (nows : List Int) (st : TokenState) :
    (applyToken now st).2 = st
    ∧ applyToken now (mkToken u p d dig) = (now + d.getD 0, mkToken u p d dig)
    ∧ applyMany (mkToken u p d dig) nows
        = (nows.map (fun n => n + d.getD 0), mkToken u p d dig) := by
  refine ⟨rfl, applyToken_mkToken u p dig d now, ?_⟩
  induction nows with
  | nil => rfl
  | cons n rest ih => simp [applyMany, applyToken_mkToken, ih]

/-- C8: dispatching an operation with a structured record built by create_type
and mutated in one field equals dispatching it with the flat mapping of that
one field, and dispatching with no parameters equals dispatching with the
empty mapping: all three normalize to the same shape before the call. -/
theorem params_normalized_equivalently
    (fkw : List (String × PyVal) → Except PyErr PyVal)
    (fpos : PyVal → Except PyErr PyVal) (op field : String) (v : PyVal) :
    serviceMethod fkw fpos (some (setField (create_type op) field v))
      = serviceMethod fkw fpos (some (.dict [(field, v)]))
    ∧ serviceMethod fkw fpos none = serviceMethod fkw fpos (some (.dict [])) :=
  ⟨rfl, rfl⟩

/-- C6: whenever a service-wrapped call fails, the error reaching the caller
is the uniform ONVIFError wrapping the original cause; no underlying exception
type escapes unwrapped. -/
theorem service_call_errors_wrapped
    (fkw : List (String × PyVal) → Except PyErr PyVal)
    (fpos : PyVal → Except PyErr PyVal) (params : Option PyVal) (e : PyErr)
    (h : serviceMethod fkw fpos params = .error e) :
    ∃ cause, e = .onvifError (errStr cause) (some cause) := by
  unfold serviceMethod at h
  cases hr : dispatchCall fkw fpos params with
  | ok a => rw [hr] at h; exact absurd h (by simp [safeFuncE])
  | error c =>
    rw [hr] at h
    simp only [safeFuncE, Except.error.injEq] at h
    exact ⟨c, h.symm⟩

/-- Witness for C6 at a concrete failing transport call. -/
theorem service_call_errors_wrapped_witness :
    ∃ cause, PyErr.onvifError "boom" (some (.exc "ConnectionError" "boom"))
      = .onvifError (errStr cause) (some cause) :=
  service_call_errors_wrapped
    (fun _ => .error (.exc "ConnectionError" "boom"))
    (fun _ => .error (.exc "ConnectionError" "boom")) none
    (.onvifError "boom" (some (.exc "ConnectionError" "boom"))) rfl

/-- C1 counterexample: on a fresh facade (service cache empty), getService
with name media and createIfAbsent false returns None successfully; it does
not fail, so in particular it raises no ServiceNotCreated error, and the
facade state is unchanged (no client is constructed). -/
theorem get_service_uncached_nocreate_counterexample :
    get_service feAll cam0 "media" false = .ok (cam0, none) := rfl

/-- C1 as amended: getService on a name that resolves to no facade attribute
(in particular, any uncached service name) with createIfAbsent false returns
None without raising, leaving the facade unchanged and constructing no client. -/
theorem get_service_uncached_nocreate_returns_none (fe : String → Bool)
    (c : Camera) (name : String) (h : getattrCam c (pyLower name) = none) :
    get_service fe c name false = .ok (c, none) := by
  simp [get_service, h]

/-- Witness for the amended C1 at a concrete uncached name. -/
theorem get_service_uncached_nocreate_returns_none_witness :
    get_service feAll cam0 "ptz" false = .ok (cam0, none) :=
  get_service_uncached_nocreate_returns_none feAll cam0 "ptz" rfl

/-- C10 counterexample: on a fresh facade the attribute xaddrs exists (the
empty capability map) but is falsy, so getService(xaddrs, createIfAbsent=true)
does not return that attribute value: it attempts construction and fails with
the Unknown service error. -/
theorem get_service_falsy_attribute_counterexample :
    get_service feAll cam0 "xaddrs" true
      = .error (.onvifError ("Unknown service xaddrs") none) := rfl

/-- C10 as amended: getService resolves through getattr on the facade itself,
so whenever the lower-cased name names a facade attribute whose value is
truthy, that value is returned as-is and construction is skipped even with
createIfAbsent true; a falsy attribute value instead triggers a construction
attempt. -/
theorem get_service_truthy_attribute_shadows (fe : String → Bool) (c : Camera)
    (name : String) (v : AttrVal) (create : Bool)
    (hv : getattrCam c (pyLower name) = some v) (ht : truthy v = true) :
    get_service fe c name create = .ok (c, some v) := by
  simp [get_service, hv, ht]

/-- Witness for the amended C10: the host attribute shadows service creation. -/
theorem get_service_truthy_attribute_shadows_witness :
    get_service feAll cam0 "host" true = .ok (cam0, some (.str "192.168.0.112")) :=
  get_service_truthy_attribute_shadows feAll cam0 "host" (.str "192.168.0.112")
    true rfl rfl

/-- C4: for every facade state and capability map, resolving devicemgmt yields
the fixed endpoint built from host and port alone (http prefixed when absent,
path /onvif/device_service), and getService(devicemgmt) succeeds by
construction even though the capability map plays no part, provided only
that the devicemgmt wsdl file exists. -/
theorem devicemgmt_fixed_endpoint (fe : String → Bool) (c : Camera)
    (hfe : fe (c.wsdl_dir ++ "/" ++ "devicemgmt.wsdl") = true)
    (hattr : alookup c.attrs "devicemgmt" = none) :
    get_definition fe c "devicemgmt" none
      = .ok (devicemgmtXAddr c.host c.port, c.wsdl_dir ++ "/" ++ "devicemgmt.wsdl",
             "\x7bhttp://www.onvif.org/ver10/device/wsdl\x7dDeviceBinding")
    ∧ ∃ c2 s, get_service fe c "devicemgmt" true = .ok (c2, some (.svc s))
        ∧ s.xaddr = devicemgmtXAddr c.host c.port := by
  have hdef : get_definition fe c "devicemgmt" none
      = .ok (devicemgmtXAddr c.host c.port, c.wsdl_dir ++ "/" ++ "devicemgmt.wsdl",
             "\x7bhttp://www.onvif.org/ver10/device/wsdl\x7dDeviceBinding") := by
    simp [get_definition, alookup, SERVICES, NS, hfe, devicemgmtXAddr]
  refine ⟨hdef, ?_⟩
  have hattr2 : getattrCam c "devicemgmt" = none := by
    simp [getattrCam, hattr, cameraMethods, PullPointSubscriptionKey]
  have hpy : pyLower "devicemgmt" = "devicemgmt" := rfl
  refine ⟨{ c with
      services := setAssoc c.services "devicemgmt"
        ⟨c.wsdl_dir ++ "/" ++ "devicemgmt.wsdl", devicemgmtXAddr c.host c.port,
         c.user, c.passwd, c.encrypt, c.dt_diff,
         "\x7bhttp://www.onvif.org/ver10/device/wsdl\x7dDeviceBinding"⟩,
      attrs := setAssoc c.attrs "devicemgmt"
        ⟨c.wsdl_dir ++ "/" ++ "devicemgmt.wsdl", devicemgmtXAddr c.host c.port,
         c.user, c.passwd, c.encrypt, c.dt_diff,
         "\x7bhttp://www.onvif.org/ver10/device/wsdl\x7dDeviceBinding"⟩ },
    ⟨c.wsdl_dir ++ "/" ++ "devicemgmt.wsdl", devicemgmtXAddr c.host c.port,
     c.user, c.passwd, c.encrypt, c.dt_diff,
     "\x7bhttp://www.onvif.org/ver10/device/wsdl\x7dDeviceBinding"⟩, ?_, rfl⟩
  simp [get_service, hpy, hattr2, createService, hdef, ONVIFService.construct,
    hfe, safeFuncE]

/-- Witness for C4 on the fresh facade with empty capability map. -/
theorem devicemgmt_fixed_endpoint_witness :
    get_definition feAll cam0 "devicemgmt" none
      = .ok (devicemgmtXAddr cam0.host cam0.port,
             cam0.wsdl_dir ++ "/" ++ "devicemgmt.wsdl",
             "\x7bhttp://www.onvif.org/ver10/device/wsdl\x7dDeviceBinding")
    ∧ ∃ c2 s, get_service feAll cam0 "devicemgmt" true = .ok (c2, some (.svc s))
        ∧ s.xaddr = devicemgmtXAddr cam0.host cam0.port :=
  devicemgmt_fixed_endpoint feAll cam0 rfl rfl

/-- C5: for a known registry service other than devicemgmt whose namespace has
no entry in the capability map, endpoint resolution raises the distinct
reportable ONVIFError (Device does not support service) rather than crashing
with another exception kind. -/
theorem unsupported_service_reported (fe : String → Bool) (c : Camera)
    (name : String) (si : ServiceInfo)
    (hlk : alookup SERVICES name = some si)
    (hnd : name ≠ "devicemgmt")
    (hfe : fe (c.wsdl_dir ++ "/" ++ si.wsdl) = true)
    (hx : alookup c.xaddrs si.ns = none) :
    get_definition fe c name none
      = .error (.onvifError ("Device doesn\x27t support service: " ++ name) none) := by
  simp [get_definition, hlk, hfe, hnd, hx]

/-- Witness for C5: media before any bootstrap on the fresh facade. -/
theorem unsupported_service_reported_witness :
    get_definition feAll cam0 "media" none
      = .error (.onvifError ("Device doesn\x27t support service: " ++ "media") none) :=
  unsupported_service_reported feAll cam0 "media"
    ⟨NS ++ "ver10/media/wsdl", "media.wsdl", "MediaBinding", none⟩
    rfl (by decide) rfl rfl

/-- C9: refreshLocation with the current host and port (or with either
omitted, or passed falsy) is a no-op: no capability fetch happens (empty
effect list) and the state, with its capability map, cached clients and their
endpoints, is returned unchanged. -/
theorem update_url_same_location_noop (fe : String → Bool) (dev : Dev)
    (c : Camera) (host : Option String) (port : Option Int)
    (hh : host = none ∨ host = some c.host ∨ host = some "")
    (hp : port = none ∨ port = some c.port ∨ port = some 0) :
    update_url fe dev c host port = ([], .ok c) := by
  rcases hh with h | h | h <;> rcases hp with q | q | q <;> subst h <;> subst q <;>
    simp [update_url]

/-- Witness for C9 with both arguments omitted on the fresh facade. -/
theorem update_url_same_location_noop_witness :
    update_url feAll dev0 cam0 none none = ([], .ok cam0) :=
  update_url_same_location_noop feAll dev0 cam0 none none (Or.inl rfl) (Or.inl rfl)

/-- C2: evaluating refreshLocation at a new host on the fresh facade: the
capability re-fetch happens exactly once, but the per-service repointing loop
raises TypeError on its first iteration, because line 255 of client.py passes
the bound method sname.capitalize (not a string) as the attribute name to
getattr.  No cached client is ever repointed. -/
theorem update_url_repoint_raises_typeerror :
    (update_url feAll dev0 cam0 (some "192.168.0.113") none).1 = [Effect.capFetch]
    ∧ ∃ m c, (update_url feAll dev0 cam0 (some "192.168.0.113") none).2
        = Except.error (PyErr.typeError m, c) :=
  ⟨rfl, _, _, rfl⟩

/-- C3 counterexample: on a facade holding the capability map of an earlier
successful bootstrap, a bootstrap whose devicemgmt-creation step fails (the
wsdl file is missing) propagates the error while the stale, non-empty
capability map is retained, not cleared. -/
theorem update_xaddrs_early_failure_retains_stale_map :
    update_xaddrs feNone dev0 0 staleCam
      = .error (.onvifError ("No such file: wsdl/devicemgmt.wsdl") none,
                { staleCam with dt_diff := none })
    ∧ ({ staleCam with dt_diff := none } : Camera).xaddrs ≠ [] :=
  ⟨rfl, by decide⟩

/-- C3 as amended, for every facade state and device.  First part: when the
capability-discovery call fails, the devicemgmt-creation step and any
requested time adjustment having succeeded (bootstrapDeviceMgmt returning
normally, whatever adjust_time is), the facade is left with its capability map
cleared.  Second part: when the devicemgmt-creation step fails, the capability
map existing before the bootstrap is retained unchanged.  Third part: when
time adjustment is requested and its device-time fetch fails, the capability
map existing before the bootstrap is likewise retained unchanged. -/
theorem update_xaddrs_failure_map_state (fe : String → Bool) (dev : Dev)
    (now : Int) (c : Camera) :
    (∀ c1 e, bootstrapDeviceMgmt fe dev now c = .ok c1 →
        dev.capabilitiesAll = .error e →
        update_xaddrs fe dev now c
          = .error (.onvifError (errStr e) (some e), { c1 with xaddrs := [] }))
    ∧ (∀ e, createService fe { c with dt_diff := none } "devicemgmt" none = .error e →
        update_xaddrs fe dev now c = .error (e, { c with dt_diff := none })
        ∧ ({ c with dt_diff := none } : Camera).xaddrs = c.xaddrs)
    ∧ (∀ c1 s e, c.adjust_time = true →
        createService fe { c with dt_diff := none } "devicemgmt" none = .ok (c1, s) →
        dev.sysDateTime = .error e →
        update_xaddrs fe dev now c = .error (.onvifError (errStr e) (some e), c1)
        ∧ c1.xaddrs = c.xaddrs) := by
  refine ⟨?_, ?_, ?_⟩
  · intro c1 e h1 h2
    simp [update_xaddrs, h1, h2, safeFuncE]
  · intro e h
    exact ⟨by simp [update_xaddrs, bootstrapDeviceMgmt, h], rfl⟩
  · intro c1 s e hadj hdm hsys
    have hc1 : c1.adjust_time = true := by
      rw [createService_ok_state hdm]
      exact hadj
    have hx : c1.xaddrs = c.xaddrs := by
      rw [createService_ok_state hdm]
    exact ⟨by simp [update_xaddrs, bootstrapDeviceMgmt, hdm, hc1, hsys, safeFuncE], hx⟩

/-- Witness for the amended C3 at concrete inputs, one per part: a capability
fetch failing with a transport error on the fresh facade leaves the cleared
(empty) capability map; a missing devicemgmt wsdl on a facade holding an
earlier bootstrap's map retains that map; a failing device-time fetch with
time adjustment requested also retains the prior (here empty) map. -/
theorem update_xaddrs_failure_map_state_witness :
    (update_xaddrs feAll devCapFail 0 cam0
      = .error (.onvifError "boom" (some (.exc "ConnectionError" "boom")),
                { cam0dm with xaddrs := [] }))
    ∧ (update_xaddrs feNone dev0 0 staleCam
        = .error (.onvifError ("No such file: wsdl/devicemgmt.wsdl") none,
                  { staleCam with dt_diff := none })
        ∧ ({ staleCam with dt_diff := none } : Camera).xaddrs = staleCam.xaddrs)
    ∧ (update_xaddrs feAll devSysFail 0 camAdj
        = .error (.onvifError "timeout" (some (.exc "OSError" "timeout")), camAdjDm)
        ∧ camAdjDm.xaddrs = camAdj.xaddrs) :=
  ⟨(update_xaddrs_failure_map_state feAll devCapFail 0 cam0).1 cam0dm
      (.exc "ConnectionError" "boom") rfl rfl,
   (update_xaddrs_failure_map_state feNone dev0 0 staleCam).2.1
      (.onvifError ("No such file: wsdl/devicemgmt.wsdl") none) rfl,
   (update_xaddrs_failure_map_state feAll devSysFail 0 camAdj).2.2 camAdjDm
      dmService0 (.exc "OSError" "timeout") rfl rfl rfl⟩

end Onvif
